import Mathlib

/-!
Shallow embedding of the school-management backend controllers
(student.controller.js and teacher.controller.js) and verification of the
pagination / validation / auth properties stated in the specification.

The relational storage engine is an external collaborator; a resource table
is modeled as the list of its stored rows, `count()` as the list length and
`findAll({order, offset, limit})` as sort-then-window over that list.  A
handler "performs no storage access" exactly when its result does not depend
on the store argument, which the theorems below express by quantifying over
(or varying) the store.
-/

deriving instance DecidableEq for Except

namespace School

/-- Character run of leading decimal digits, as consumed by JS `parseInt`. -/
def takeDigits : List Char → List Char
  | [] => []
  | c :: cs => if c.isDigit then c :: takeDigits cs else []

/-- Numeric value of a digit run. -/
def digitsToNat (ds : List Char) : Nat :=
  ds.foldl (fun acc c => acc * 10 + (c.toNat - 48)) 0

/-- JS `parseInt` on a decimal string: skip leading whitespace, optional
sign, then the longest prefix of digits; `NaN` (here `none`) if that prefix
is empty. -/
def parseIntJs (s : String) : Option Int :=
  let cs := s.data.dropWhile Char.isWhitespace
  let signAndRest : Bool × List Char :=
    match cs with
    | '-' :: rest => (true, rest)
    | '+' :: rest => (false, rest)
    | _ => (false, cs)
  let ds := takeDigits signAndRest.2
  if ds.isEmpty then none
  else some (if signAndRest.1 then -(digitsToNat ds : Int) else (digitsToNat ds : Int))

/-- `parseInt(q) || d`: an absent parameter parses to `NaN`, and both `NaN`
and `0` are falsy, so they are replaced by the default `d`. -/
def parseIntOr (q : Option String) (d : Int) : Int :=
  match q with
  | none => d
  | some s =>
    match parseIntJs s with
    | none => d
    | some n => if n = 0 then d else n

/-- JS `toUpperCase` on the ASCII strings used here: uppercase each
character. -/
def toUpperJs (s : String) : String := ⟨s.data.map Char.toUpper⟩

/-- JS `String.split(',')` on a character list: the fields between
commas, in order, keeping empty fields. -/
def splitCommaChars : List Char → List (List Char)
  | [] => [[]]
  | c :: cs =>
    if c = ',' then [] :: splitCommaChars cs
    else
      match splitCommaChars cs with
      | [] => [[c]]
      | f :: rest => (c :: f) :: rest

/-- JS `String.split(',')`. -/
def splitComma (s : String) : List String :=
  (splitCommaChars s.data).map (fun cs => ⟨cs⟩)

/-- `req.query.sort ? req.query.sort.toUpperCase() : 'ASC'` (the empty
string is falsy in JS, so it also falls back to `'ASC'`). -/
def sortParam (q : Option String) : String :=
  match q with
  | none => "ASC"
  | some s => if s = "" then "ASC" else toUpperJs s

/-- `req.query.populate ? req.query.populate.split(',') : []` (the empty
string is falsy in JS, so it yields `[]`). -/
def populateParam (q : Option String) : List String :=
  match q with
  | none => []
  | some s => if s = "" then [] else splitComma s

/-- `const validRelations = ['courseId']`, identical in every handler. -/
def validRelations : List String := ["courseId"]

/-- The entries of `populate` that are not valid relations:
`populate.filter(rel => !validRelations.includes(rel))`. -/
def invalidRelationsOf (populate : List String) : List String :=
  populate.filter (fun rel => !(validRelations.contains rel))

/-- A Student row (fields used by the student controller). -/
structure Student where
  id : Nat
  title : String
  description : String
  teacherId : Nat
  createdAt : Nat
deriving Repr, DecidableEq

/-- A Teacher row (fields used by the teacher controller). -/
structure Teacher where
  id : Nat
  name : String
  department : String
  email : String
  password_hash : String
  createdAt : Nat
deriving Repr, DecidableEq

/-- A Course row; its own fields are managed by the course controller and
only its presence as eager-loaded relation data matters here. -/
structure Course where
  id : Nat
  createdAt : Nat
deriving Repr, DecidableEq

/-- The `meta` object of the list-response envelope. -/
structure Meta where
  total : Nat
  page : Int
  limit : Int
  totalPages : Int
deriving Repr, DecidableEq

/-- The `{data, meta}` list-response envelope. -/
structure Envelope (α : Type) where
  data : List α
  meta : Meta
deriving Repr, DecidableEq

/-- A non-2xx JSON response: HTTP status plus the single message field of
its body (keyed `error` for 400/500 responses and `message` for 404). -/
structure ErrorResponse where
  status : Nat
  msg : String
deriving Repr, DecidableEq

/-- The query parameters read by the list and get-by-id handlers. -/
structure ListQuery where
  limit : Option String
  page : Option String
  sort : Option String
  populate : Option String
deriving Repr, DecidableEq

/-- Stable insertion of a row into a list ascending on `key`. -/
def insertByKey (key : α → Nat) (x : α) : List α → List α
  | [] => [x]
  | y :: ys => if key x ≤ key y then x :: y :: ys else y :: insertByKey key x ys

/-- Sort rows ascending on `key`. -/
def sortByKey (key : α → Nat) : List α → List α
  | [] => []
  | x :: xs => insertByKey key x (sortByKey key xs)

/-- `order: [['createdAt', sort]]`: rows ordered on their creation
timestamp in the requested direction. -/
def orderByCreatedAt (key : α → Nat) (sort : String) (rows : List α) : List α :=
  if sort = "DESC" then (sortByKey key rows).reverse else sortByKey key rows

/-- `findAll({limit, offset, order: [['createdAt', sort]]})`: the ordered
rows restricted to the OFFSET/LIMIT window.  (The eager-load `include`
only attaches relation rows owned by the external storage engine; no
property below observes them on list responses, so the window returns the
plain rows.) -/
def findAllWindow (key : α → Nat) (sort : String) (limit offset : Int)
    (rows : List α) : List α :=
  ((orderByCreatedAt key sort rows).drop offset.toNat).take limit.toNat

/-- `Math.ceil(total / limit)` for a row count `total` and a nonzero
integer `limit` (JS computes the exact rational and rounds up; for a
negative `limit` the quotient is nonpositive and its ceiling is the negated
floor of `total / (-limit)`). -/
def mathCeilDiv (total : Nat) (limit : Int) : Int :=
  if 0 < limit then ((total : Int) + limit - 1) / limit
  else -((total : Int) / (-limit))

/-- Embeds `getAllStudents` (student.controller.js).  The handler parses
`limit`/`page` with falsy-coalesced defaults, uppercases `sort`, splits
`populate`, validates `sort` and then `populate` (there is no positivity
check on `limit`/`page` in this handler), and otherwise counts and fetches
the windowed rows and assembles the envelope. -/
def getAllStudents (q : ListQuery) (store : List Student) :
    Except ErrorResponse (Envelope Student) :=
  let limit := parseIntOr q.limit 10
  let page := parseIntOr q.page 1
  let sort := sortParam q.sort
  let populate := populateParam q.populate
  if ¬(sort = "ASC" ∨ sort = "DESC") then
    .error ⟨400, "Invalid sort value. Use \"asc\" or \"desc\"."⟩
  else if invalidRelationsOf populate ≠ [] then
    .error ⟨400, "Invalid populate values: " ++
      String.intercalate ", " (invalidRelationsOf populate)⟩
  else
    let total := store.length
    let students := findAllWindow Student.createdAt sort limit ((page - 1) * limit) store
    .ok ⟨students, ⟨total, page, limit, mathCeilDiv total limit⟩⟩

/-- Embeds `getAllTeachers` (teacher.controller.js).  Identical to
`getAllStudents` except that it first rejects nonpositive `limit`/`page`,
before the sort and populate checks. -/
def getAllTeachers (q : ListQuery) (store : List Teacher) :
    Except ErrorResponse (Envelope Teacher) :=
  let limit := parseIntOr q.limit 10
  let page := parseIntOr q.page 1
  let sort := sortParam q.sort
  let populate := populateParam q.populate
  if limit ≤ 0 ∨ page ≤ 0 then
    .error ⟨400, "Limit and page must be positive integers."⟩
  else if ¬(sort = "ASC" ∨ sort = "DESC") then
    .error ⟨400, "Invalid sort value. Use \"asc\" or \"desc\"."⟩
  else if invalidRelationsOf populate ≠ [] then
    .error ⟨400, "Invalid populate values: " ++
      String.intercalate ", " (invalidRelationsOf populate)⟩
  else
    let total := store.length
    let teachers := findAllWindow Teacher.createdAt sort limit ((page - 1) * limit) store
    .ok ⟨teachers, ⟨total, page, limit, mathCeilDiv total limit⟩⟩

/-- A student record as returned by `getStudentById`: the row with its
unconditionally eager-loaded Course relation rows. -/
structure StudentRecord where
  student : Student
  includedCourses : List Course
deriving Repr, DecidableEq

/-- Embeds `getStudentById` (student.controller.js).
`findByPk(req.params.id, {include: db.Course})` is modeled as lookup in the
store together with the association function `coursesOf` (the
Student-Course association itself lives in the external models module).
The handler reads only `req.params.id`; the query string `q` — including
`populate` — is received but never read, exactly as in the source. -/
def getStudentById (id : Nat) (q : ListQuery) (store : List Student)
    (coursesOf : Nat → List Course) : Except ErrorResponse StudentRecord :=
  match store.find? (fun s => s.id == id) with
  | none => .error ⟨404, "Not found"⟩
  | some s => .ok ⟨s, coursesOf s.id⟩

/-- A teacher record as returned by `getTeacherById`: the row with its
Course relation rows, present exactly when the include was requested. -/
structure TeacherRecord where
  teacher : Teacher
  includedCourses : Option (List Course)
deriving Repr, DecidableEq

/-- Embeds `getTeacherById` (teacher.controller.js): validates `populate`,
builds the include (Courses are attached iff `populate` contains
`courseId`), then `findByPk`. -/
def getTeacherById (id : Nat) (q : ListQuery) (store : List Teacher)
    (coursesOf : Nat → List Course) : Except ErrorResponse TeacherRecord :=
  let populate := populateParam q.populate
  if invalidRelationsOf populate ≠ [] then
    .error ⟨400, "Invalid populate values: " ++
      String.intercalate ", " (invalidRelationsOf populate)⟩
  else
    match store.find? (fun t => t.id == id) with
    | none => .error ⟨404, "Not found"⟩
    | some t =>
      .ok ⟨t, if populate.contains "courseId" then some (coursesOf t.id) else none⟩

/-- JS truthiness of a possibly-absent string field: `undefined` and the
empty string are falsy. -/
def truthy : Option String → Bool
  | none => false
  | some s => s != ""

/-- The request body of `POST /teachers/register`. -/
structure RegisterBody where
  name : Option String
  department : Option String
  email : Option String
  password : Option String
deriving Repr, DecidableEq

/-- The `data` object of a successful registration response — exactly the
four fields `{id, name, department, email}` the source constructs; the
password hash has no place in this shape. -/
structure RegisterData where
  id : Nat
  name : String
  department : String
  email : String
deriving Repr, DecidableEq

/-- The three response shapes of `registerTeacher`:
400 `'Missing required fields'`, 409 `'Teacher already exists'`, and
201 with the data object. -/
inductive RegisterResponse where
  | missingFields
  | alreadyExists
  | registered (data : RegisterData)
deriving Repr, DecidableEq

/-- The Teacher table plus the storage engine's id/timestamp assignment
for newly created rows. -/
structure TeacherStore where
  rows : List Teacher
  nextId : Nat
  now : Nat
deriving Repr, DecidableEq

/-- Embeds `registerTeacher` (teacher.controller.js): reject falsy fields
with 400; `findOne` on the exact (name, department, email) triple and
reject a match with 409; otherwise hash the password (the bcrypt transform
is the external `hash` collaborator), `create` the row and answer 201 with
`{id, name, department, email}` only. -/
def registerTeacher (body : RegisterBody) (hash : String → String)
    (st : TeacherStore) : RegisterResponse × TeacherStore :=
  if ¬(truthy body.name ∧ truthy body.department ∧ truthy body.email ∧
        truthy body.password) then
    (.missingFields, st)
  else
    let name := body.name.getD ""
    let department := body.department.getD ""
    let email := body.email.getD ""
    match st.rows.find? (fun t =>
        t.name == name && t.department == department && t.email == email) with
    | some _ => (.alreadyExists, st)
    | none =>
      let hashedPassword := hash (body.password.getD "")
      let newTeacher : Teacher :=
        ⟨st.nextId, name, department, email, hashedPassword, st.now⟩
      (.registered ⟨newTeacher.id, newTeacher.name, newTeacher.department,
          newTeacher.email⟩,
       ⟨st.rows ++ [newTeacher], st.nextId + 1, st.now⟩)

/-- The request body of `POST /teachers/login`. -/
structure LoginBody where
  email : Option String
  password : Option String
deriving Repr, DecidableEq

/-- The row shape produced by
`findOne({where: {email}, attributes: ['id', 'email', 'password_hash']})`:
only the three selected attributes are present; reading any other
attribute of the result — in particular `.name` — yields JS `undefined`,
modeled as `none`. -/
structure TeacherAuthRow where
  id : Nat
  email : String
  password_hash : String
  name : Option String
deriving Repr, DecidableEq

/-- The login lookup: first row matching the email, projected to the
selected attributes (so `name := none`). -/
def findTeacherForLogin (store : List Teacher) (email : String) :
    Option TeacherAuthRow :=
  (store.find? (fun t => t.email == email)).map
    (fun t => ⟨t.id, t.email, t.password_hash, none⟩)

/-- The claims object signed into the token:
`{email: teacher.email, name: teacher.name, id: teacher.id}` (a claim may
be `undefined`, hence the `Option`). -/
structure JwtPayload where
  email : String
  name : Option String
  id : Nat
deriving Repr, DecidableEq

/-- A signed token: claims, issued-at, expiry, and the signing key. -/
structure Token where
  payload : JwtPayload
  iat : Nat
  exp : Nat
  secret : String
deriving Repr, DecidableEq

/-- `jwt.sign(payload, secret, {expiresIn: '1h'})` at wall-clock `now`:
expiry is issued-at plus 3600 seconds, signature keyed by `secret`. -/
def jwtSign (payload : JwtPayload) (secret : String) (now : Nat) : Token :=
  ⟨payload, now, now + 3600, secret⟩

/-- An HTTP response of `loginTeacher`: status, the `success` flag, the
`message` field of failure bodies, and the `accessToken` of success
bodies. -/
structure LoginHttp where
  status : Nat
  success : Bool
  message : Option String
  accessToken : Option Token
deriving Repr, DecidableEq

/-- Embeds `loginTeacher` (teacher.controller.js): reject falsy
email/password with 400; look the teacher up by email only (projected to
`['id', 'email', 'password_hash']`); on lookup miss answer
401 `'Password or email already exist'`; on bcrypt mismatch (the compare
is the external `verify` collaborator) answer 401 `'Invalid Password'`;
otherwise sign `{email, name, id}` with the process-wide secret for one
hour and answer 200 with the token. -/
def loginTeacher (body : LoginBody) (secret : String)
    (verify : String → String → Bool) (now : Nat) (store : List Teacher) :
    LoginHttp :=
  if ¬(truthy body.email ∧ truthy body.password) then
    ⟨400, false, some "Missing required fields", none⟩
  else
    let email := body.email.getD ""
    let password := body.password.getD ""
    match findTeacherForLogin store email with
    | none => ⟨401, false, some "Password or email already exist", none⟩
    | some teacher =>
      if ¬(verify password teacher.password_hash) then
        ⟨401, false, some "Invalid Password", none⟩
      else
        let payload : JwtPayload := ⟨teacher.email, teacher.name, teacher.id⟩
        ⟨200, true, none, some (jwtSign payload secret now)⟩

/-! ### Helper lemmas -/

theorem length_insertByKey (key : α → Nat) (x : α) (l : List α) :
    (insertByKey key x l).length = l.length + 1 := by
  induction l with
  | nil => rfl
  | cons y ys ih =>
    simp only [insertByKey]
    split_ifs
    · simp
    · simp [ih]

theorem length_sortByKey (key : α → Nat) (l : List α) :
    (sortByKey key l).length = l.length := by
  induction l with
  | nil => rfl
  | cons y ys ih => simp [sortByKey, length_insertByKey, ih]

theorem length_orderByCreatedAt (key : α → Nat) (sort : String) (l : List α) :
    (orderByCreatedAt key sort l).length = l.length := by
  unfold orderByCreatedAt
  split_ifs <;> simp [length_sortByKey]

/-- A fetch window whose offset is at or beyond the row count is empty. -/
theorem findAllWindow_beyond (key : α → Nat) (sort : String) (limit offset : Int)
    (rows : List α) (h : (rows.length : Int) ≤ offset) :
    findAllWindow key sort limit offset rows = [] := by
  unfold findAllWindow
  have hlen : (orderByCreatedAt key sort rows).length = rows.length :=
    length_orderByCreatedAt key sort rows
  have hle : (orderByCreatedAt key sort rows).length ≤ offset.toNat := by omega
  rw [List.drop_eq_nil_of_le hle, List.take_nil]

/-- For a positive divisor, `Math.ceil` of the exact quotient is the
rounded-up integer division. -/
theorem mathCeilDiv_eq_ceil (a : ℕ) (b : ℤ) (hb : 0 < b) :
    mathCeilDiv a b = ⌈(a : ℚ) / (b : ℚ)⌉ := by
  rw [mathCeilDiv, if_pos hb, eq_comm, Int.ceil_eq_iff]
  have hbq : (0 : ℚ) < (b : ℚ) := by exact_mod_cast hb
  have hdm := Int.ediv_add_emod ((a : ℤ) + b - 1) b
  have hr0 : 0 ≤ ((a : ℤ) + b - 1) % b := Int.emod_nonneg _ (by omega)
  have hrb : ((a : ℤ) + b - 1) % b < b := Int.emod_lt_of_pos _ hb
  set q : ℤ := ((a : ℤ) + b - 1) / b with hq
  set r : ℤ := ((a : ℤ) + b - 1) % b with hr
  constructor
  · rw [lt_div_iff₀ hbq]
    have hlt : (q - 1) * b < (a : ℤ) := by nlinarith
    exact_mod_cast hlt
  · rw [div_le_iff₀ hbq]
    have hle : (a : ℤ) ≤ q * b := by nlinarith
    exact_mod_cast hle

/-- Inversion of the success branch of `getAllStudents`: a returned
envelope is exactly the windowed fetch with the count-derived meta. -/
theorem getAllStudents_ok_inv (q : ListQuery) (store : List Student)
    (env : Envelope Student) (h : getAllStudents q store = .ok env) :
    env = ⟨findAllWindow Student.createdAt (sortParam q.sort) (parseIntOr q.limit 10)
            ((parseIntOr q.page 1 - 1) * parseIntOr q.limit 10) store,
          ⟨store.length, parseIntOr q.page 1, parseIntOr q.limit 10,
           mathCeilDiv store.length (parseIntOr q.limit 10)⟩⟩ := by
  simp only [getAllStudents] at h
  split_ifs at h <;> simp only [Except.ok.injEq] at h
  exact h.symm

/-- Inversion of the success branch of `getAllTeachers`. -/
theorem getAllTeachers_ok_inv (q : ListQuery) (store : List Teacher)
    (env : Envelope Teacher) (h : getAllTeachers q store = .ok env) :
    env = ⟨findAllWindow Teacher.createdAt (sortParam q.sort) (parseIntOr q.limit 10)
            ((parseIntOr q.page 1 - 1) * parseIntOr q.limit 10) store,
          ⟨store.length, parseIntOr q.page 1, parseIntOr q.limit 10,
           mathCeilDiv store.length (parseIntOr q.limit 10)⟩⟩ := by
  simp only [getAllTeachers] at h
  split_ifs at h <;> simp only [Except.ok.injEq] at h
  exact h.symm

/-- Sample rows shared by the concrete witnesses. -/
def sampleStudents : List Student :=
  [⟨1, "s1", "d1", 1, 3⟩, ⟨2, "s2", "d2", 1, 1⟩, ⟨3, "s3", "d3", 1, 2⟩]

/-- A stored teacher row used by the concrete witnesses. -/
def aliceRow : Teacher := ⟨1, "Alice", "Math", "alice@school.edu", "HASH1", 0⟩

/-! ### Claim theorems -/

/-- C1: for every list request with valid page ≥ 1 and limit ≥ 1, the
envelope produced by `getAllStudents` and `getAllTeachers` satisfies
`meta.totalPages = ⌈meta.total / meta.limit⌉`, where `meta.total` is the
count returned by the store and `meta.page`, `meta.limit` echo the parsed
parameters. -/
theorem c1_totalPages_is_ceil (q : ListQuery) (ss : List Student)
    (ts : List Teacher) (envS : Envelope Student) (envT : Envelope Teacher)
    (hl : 1 ≤ parseIntOr q.limit 10) (hp : 1 ≤ parseIntOr q.page 1)
    (hS : getAllStudents q ss = .ok envS)
    (hT : getAllTeachers q ts = .ok envT) :
    ((envS.meta.totalPages : ℚ) = ⌈(envS.meta.total : ℚ) / (envS.meta.limit : ℚ)⌉ ∧
      envS.meta.total = ss.length ∧
      envS.meta.page = parseIntOr q.page 1 ∧
      envS.meta.limit = parseIntOr q.limit 10) ∧
    ((envT.meta.totalPages : ℚ) = ⌈(envT.meta.total : ℚ) / (envT.meta.limit : ℚ)⌉ ∧
      envT.meta.total = ts.length ∧
      envT.meta.page = parseIntOr q.page 1 ∧
      envT.meta.limit = parseIntOr q.limit 10) := by
  have hpos : (0 : ℤ) < parseIntOr q.limit 10 := by omega
  have eS := getAllStudents_ok_inv q ss envS hS
  have eT := getAllTeachers_ok_inv q ts envT hT
  subst eS eT
  refine ⟨⟨?_, rfl, rfl, rfl⟩, ⟨?_, rfl, rfl, rfl⟩⟩ <;>
    simp [mathCeilDiv_eq_ceil _ _ hpos]

/-- C1 witness: `limit=5, page=2` against 3 stored students and 1 stored
teacher. -/
theorem c1_totalPages_is_ceil_witness :
    (((⟨[], ⟨3, 2, 5, 1⟩⟩ : Envelope Student).meta.totalPages : ℚ) =
        ⌈((⟨[], ⟨3, 2, 5, 1⟩⟩ : Envelope Student).meta.total : ℚ) /
          ((⟨[], ⟨3, 2, 5, 1⟩⟩ : Envelope Student).meta.limit : ℚ)⌉ ∧
      (⟨[], ⟨3, 2, 5, 1⟩⟩ : Envelope Student).meta.total = sampleStudents.length ∧
      (⟨[], ⟨3, 2, 5, 1⟩⟩ : Envelope Student).meta.page = parseIntOr (some "2") 1 ∧
      (⟨[], ⟨3, 2, 5, 1⟩⟩ : Envelope Student).meta.limit = parseIntOr (some "5") 10) ∧
    (((⟨[], ⟨1, 2, 5, 1⟩⟩ : Envelope Teacher).meta.totalPages : ℚ) =
        ⌈((⟨[], ⟨1, 2, 5, 1⟩⟩ : Envelope Teacher).meta.total : ℚ) /
          ((⟨[], ⟨1, 2, 5, 1⟩⟩ : Envelope Teacher).meta.limit : ℚ)⌉ ∧
      (⟨[], ⟨1, 2, 5, 1⟩⟩ : Envelope Teacher).meta.total = [aliceRow].length ∧
      (⟨[], ⟨1, 2, 5, 1⟩⟩ : Envelope Teacher).meta.page = parseIntOr (some "2") 1 ∧
      (⟨[], ⟨1, 2, 5, 1⟩⟩ : Envelope Teacher).meta.limit = parseIntOr (some "5") 10) :=
  c1_totalPages_is_ceil ⟨some "5", some "2", none, none⟩ sampleStudents [aliceRow]
    ⟨[], ⟨3, 2, 5, 1⟩⟩ ⟨[], ⟨1, 2, 5, 1⟩⟩
    (by decide) (by decide) (by rfl) (by rfl)

/-- C2 counterexample: `getAllStudents` performs no positivity check, so a
request with parsed `limit = -5 ≤ 0` is not rejected; it reaches storage
(the result varies with the store) and succeeds. -/
theorem c2_students_no_positivity_check :
    parseIntOr (some "-5") 10 ≤ 0 ∧
    getAllStudents ⟨some "-5", none, none, none⟩ [⟨1, "t", "d", 1, 0⟩] =
      .ok ⟨[], ⟨1, 1, -5, 0⟩⟩ ∧
    getAllStudents ⟨some "-5", none, none, none⟩ [⟨1, "t", "d", 1, 0⟩] ≠
      getAllStudents ⟨some "-5", none, none, none⟩ [] := by decide

/-- C2 amended: only `getAllTeachers` rejects a parsed `limit` or `page`
≤ 0, with HTTP 400 `'Limit and page must be positive integers.'`; the
check is step 1, prior to the sort and populate checks (the conclusion
holds for every `sort`/`populate` value), and no storage access occurs
(the conclusion holds for every store).  `getAllStudents` has no such
check.  A parsed value ≤ 0 is necessarily negative, since `0` is falsy
and coalesced to the default. -/
theorem c2_teachers_reject_nonpositive (q : ListQuery) (ts : List Teacher)
    (h : parseIntOr q.limit 10 ≤ 0 ∨ parseIntOr q.page 1 ≤ 0) :
    getAllTeachers q ts = .error ⟨400, "Limit and page must be positive integers."⟩ := by
  simp only [getAllTeachers]
  rw [if_pos h]

/-- C2 witness: `limit = -3` with an invalid sort and an invalid populate
still yields the positivity error, for a nonempty store. -/
theorem c2_teachers_reject_nonpositive_witness :
    getAllTeachers ⟨some "-3", none, some "sideways", some "bogus"⟩ [aliceRow] =
      .error ⟨400, "Limit and page must be positive integers."⟩ :=
  c2_teachers_reject_nonpositive ⟨some "-3", none, some "sideways", some "bogus"⟩
    [aliceRow] (by decide)

/-- C8: a valid list request whose offset `(page-1)×limit` is at or beyond
the stored row count succeeds with an empty data sequence, while
`meta.total` is still the true row count and `meta.totalPages` is computed
from it. -/
theorem c8_page_beyond_rows_empty (q : ListQuery) (ss : List Student)
    (ts : List Teacher)
    (hsort : sortParam q.sort = "ASC" ∨ sortParam q.sort = "DESC")
    (hpop : invalidRelationsOf (populateParam q.populate) = [])
    (hl : 1 ≤ parseIntOr q.limit 10) (hp : 1 ≤ parseIntOr q.page 1)
    (hoffS : (ss.length : ℤ) ≤ (parseIntOr q.page 1 - 1) * parseIntOr q.limit 10)
    (hoffT : (ts.length : ℤ) ≤ (parseIntOr q.page 1 - 1) * parseIntOr q.limit 10) :
    getAllStudents q ss =
      .ok ⟨[], ⟨ss.length, parseIntOr q.page 1, parseIntOr q.limit 10,
        ⌈(ss.length : ℚ) / (parseIntOr q.limit 10 : ℚ)⌉⟩⟩ ∧
    getAllTeachers q ts =
      .ok ⟨[], ⟨ts.length, parseIntOr q.page 1, parseIntOr q.limit 10,
        ⌈(ts.length : ℚ) / (parseIntOr q.limit 10 : ℚ)⌉⟩⟩ := by
  have hpos : (0 : ℤ) < parseIntOr q.limit 10 := by omega
  constructor
  · simp only [getAllStudents]
    rw [if_neg (not_not_intro hsort), if_neg (not_not_intro hpop),
      findAllWindow_beyond _ _ _ _ _ hoffS, mathCeilDiv_eq_ceil _ _ hpos]
  · simp only [getAllTeachers]
    rw [if_neg (by omega : ¬(parseIntOr q.limit 10 ≤ 0 ∨ parseIntOr q.page 1 ≤ 0)),
      if_neg (not_not_intro hsort), if_neg (not_not_intro hpop),
      findAllWindow_beyond _ _ _ _ _ hoffT, mathCeilDiv_eq_ceil _ _ hpos]

/-- C8 witness: `limit=5, page=2` (offset 5) against 3 stored students and
1 stored teacher. -/
theorem c8_page_beyond_rows_empty_witness :
    getAllStudents ⟨some "5", some "2", none, none⟩ sampleStudents =
      .ok ⟨[], ⟨sampleStudents.length, parseIntOr (some "2") 1, parseIntOr (some "5") 10,
        ⌈(sampleStudents.length : ℚ) / (parseIntOr (some "5") 10 : ℚ)⌉⟩⟩ ∧
    getAllTeachers ⟨some "5", some "2", none, none⟩ [aliceRow] =
      .ok ⟨[], ⟨[aliceRow].length, parseIntOr (some "2") 1, parseIntOr (some "5") 10,
        ⌈([aliceRow].length : ℚ) / (parseIntOr (some "5") 10 : ℚ)⌉⟩⟩ :=
  c8_page_beyond_rows_empty ⟨some "5", some "2", none, none⟩ sampleStudents [aliceRow]
    (by decide) (by decide) (by decide) (by decide) (by decide) (by decide)

/-- C3: a list request whose sort parameter, compared case-insensitively,
is neither "asc" nor "desc" is answered with HTTP 400 and no storage call
(for `getAllStudents` the exact sort error, for `getAllTeachers` a 400
whose body does not depend on the store); conversely every casing of
"asc"/"desc" passes the check (it is uppercased first) and, with the other
parameters valid, the request succeeds. -/
theorem c3_sort_validation (q : ListQuery) (ss : List Student)
    (ts ts' : List Teacher) (x : String) (ss2 : List Student) (ts2 : List Teacher) :
    (¬(sortParam q.sort = "ASC" ∨ sortParam q.sort = "DESC") →
      getAllStudents q ss = .error ⟨400, "Invalid sort value. Use \"asc\" or \"desc\"."⟩ ∧
      (∃ e, getAllTeachers q ts = .error e ∧ e.status = 400) ∧
      getAllTeachers q ts = getAllTeachers q ts') ∧
    ((toUpperJs x = "ASC" ∨ toUpperJs x = "DESC") →
      sortParam (some x) = toUpperJs x ∧
      (∃ env, getAllStudents ⟨none, none, some x, none⟩ ss2 = .ok env) ∧
      (∃ env, getAllTeachers ⟨none, none, some x, none⟩ ts2 = .ok env)) := by
  constructor
  · intro hbad
    refine ⟨?_, ?_, ?_⟩
    · simp only [getAllStudents]
      rw [if_pos hbad]
    · by_cases hlp : parseIntOr q.limit 10 ≤ 0 ∨ parseIntOr q.page 1 ≤ 0
      · refine ⟨⟨400, "Limit and page must be positive integers."⟩, ?_, rfl⟩
        simp only [getAllTeachers]
        rw [if_pos hlp]
      · refine ⟨⟨400, "Invalid sort value. Use \"asc\" or \"desc\"."⟩, ?_, rfl⟩
        simp only [getAllTeachers]
        rw [if_neg hlp, if_pos hbad]
    · by_cases hlp : parseIntOr q.limit 10 ≤ 0 ∨ parseIntOr q.page 1 ≤ 0
      · simp only [getAllTeachers]
        rw [if_pos hlp, if_pos hlp]
      · simp only [getAllTeachers]
        rw [if_neg hlp, if_neg hlp, if_pos hbad, if_pos hbad]
  · intro hok
    have hx : x ≠ "" := by
      intro he
      subst he
      rcases hok with h | h <;> exact absurd h (by decide)
    have hs : sortParam (some x) = toUpperJs x := by
      simp [sortParam, hx]
    have hgood : sortParam (some x) = "ASC" ∨ sortParam (some x) = "DESC" := by
      rw [hs]; exact hok
    refine ⟨hs,
      ⟨⟨findAllWindow Student.createdAt (sortParam (some x)) (parseIntOr none 10)
          ((parseIntOr none 1 - 1) * parseIntOr none 10) ss2,
        ⟨ss2.length, parseIntOr none 1, parseIntOr none 10,
         mathCeilDiv ss2.length (parseIntOr none 10)⟩⟩, ?_⟩,
      ⟨⟨findAllWindow Teacher.createdAt (sortParam (some x)) (parseIntOr none 10)
          ((parseIntOr none 1 - 1) * parseIntOr none 10) ts2,
        ⟨ts2.length, parseIntOr none 1, parseIntOr none 10,
         mathCeilDiv ts2.length (parseIntOr none 10)⟩⟩, ?_⟩⟩
    · simp only [getAllStudents]
      rw [if_neg (not_not_intro hgood),
        if_neg (by decide : ¬invalidRelationsOf (populateParam none) ≠ [])]
    · simp only [getAllTeachers]
      rw [if_neg (by decide : ¬(parseIntOr none 10 ≤ 0 ∨ parseIntOr none 1 ≤ 0)),
        if_neg (not_not_intro hgood),
        if_neg (by decide : ¬invalidRelationsOf (populateParam none) ≠ [])]

/-- C3 witness: sort "up" is rejected by both list handlers without
storage access; sort "dEsC" is accepted end to end. -/
theorem c3_sort_validation_witness :
    (getAllStudents ⟨none, none, some "up", none⟩ [] =
        .error ⟨400, "Invalid sort value. Use \"asc\" or \"desc\"."⟩ ∧
      (∃ e, getAllTeachers ⟨none, none, some "up", none⟩ [] = .error e ∧ e.status = 400) ∧
      getAllTeachers ⟨none, none, some "up", none⟩ [] =
        getAllTeachers ⟨none, none, some "up", none⟩ [aliceRow]) ∧
    (sortParam (some "dEsC") = toUpperJs "dEsC" ∧
      (∃ env, getAllStudents ⟨none, none, some "dEsC", none⟩ sampleStudents = .ok env) ∧
      (∃ env, getAllTeachers ⟨none, none, some "dEsC", none⟩ [aliceRow] = .ok env)) :=
  ⟨(c3_sort_validation ⟨none, none, some "up", none⟩ [] [] [aliceRow] "dEsC"
      sampleStudents [aliceRow]).1 (by decide),
   (c3_sort_validation ⟨none, none, some "up", none⟩ [] [] [aliceRow] "dEsC"
      sampleStudents [aliceRow]).2 (by decide)⟩

/-- C4 counterexample: `getStudentById` does not validate `populate`: with
the invalid entry "bogus" it still answers 200 with the record, not 400,
so the claim fails for that get-by-id handler. -/
theorem c4_getStudentById_ignores_invalid_populate :
    invalidRelationsOf (populateParam (some "bogus")) = ["bogus"] ∧
    getStudentById 1 ⟨none, none, none, some "bogus"⟩ [⟨1, "t", "d", 1, 0⟩]
      (fun _ => []) = .ok ⟨⟨1, "t", "d", 1, 0⟩, []⟩ := by decide

/-- C4 amended: when the comma-separated populate parameter contains an
entry outside {courseId}, `getTeacherById` always rejects with HTTP 400
naming every invalid entry joined by ", "; `getAllStudents` does so
provided its earlier sort check passes, and `getAllTeachers` provided its
earlier positivity and sort checks pass.  No storage is accessed (the
error is the same for every store).  `getStudentById` performs no populate
validation at all. -/
theorem c4_populate_rejected_naming_all (q : ListQuery) (ss : List Student)
    (ts tg : List Teacher) (id : Nat) (coursesOf : Nat → List Course)
    (h : invalidRelationsOf (populateParam q.populate) ≠ []) :
    getTeacherById id q tg coursesOf =
      .error ⟨400, "Invalid populate values: " ++
        String.intercalate ", " (invalidRelationsOf (populateParam q.populate))⟩ ∧
    ((sortParam q.sort = "ASC" ∨ sortParam q.sort = "DESC") →
      getAllStudents q ss =
        .error ⟨400, "Invalid populate values: " ++
          String.intercalate ", " (invalidRelationsOf (populateParam q.populate))⟩) ∧
    (¬(parseIntOr q.limit 10 ≤ 0 ∨ parseIntOr q.page 1 ≤ 0) →
      (sortParam q.sort = "ASC" ∨ sortParam q.sort = "DESC") →
      getAllTeachers q ts =
        .error ⟨400, "Invalid populate values: " ++
          String.intercalate ", " (invalidRelationsOf (populateParam q.populate))⟩) := by
  refine ⟨?_, ?_, ?_⟩
  · simp only [getTeacherById]
    rw [if_pos h]
  · intro hsort
    simp only [getAllStudents]
    rw [if_neg (not_not_intro hsort), if_pos h]
  · intro hlp hsort
    simp only [getAllTeachers]
    rw [if_neg hlp, if_neg (not_not_intro hsort), if_pos h]

/-- C4 witness: populate "a,b" is rejected by `getTeacherById`,
`getAllStudents` and `getAllTeachers` with a message naming both invalid
entries. -/
theorem c4_populate_rejected_naming_all_witness :
    getTeacherById 1 ⟨none, none, none, some "a,b"⟩ [aliceRow] (fun _ => []) =
      .error ⟨400, "Invalid populate values: " ++
        String.intercalate ", " (invalidRelationsOf (populateParam (some "a,b")))⟩ ∧
    getAllStudents ⟨none, none, none, some "a,b"⟩ sampleStudents =
      .error ⟨400, "Invalid populate values: " ++
        String.intercalate ", " (invalidRelationsOf (populateParam (some "a,b")))⟩ ∧
    getAllTeachers ⟨none, none, none, some "a,b"⟩ [aliceRow] =
      .error ⟨400, "Invalid populate values: " ++
        String.intercalate ", " (invalidRelationsOf (populateParam (some "a,b")))⟩ :=
  have hmain := c4_populate_rejected_naming_all ⟨none, none, none, some "a,b"⟩
    sampleStudents [aliceRow] [aliceRow] 1 (fun _ => []) (by decide)
  ⟨hmain.1, hmain.2.1 (by decide), hmain.2.2 (by decide) (by decide)⟩

/-- C9: a list request whose `limit` or `page` is absent, unparseable or
parses to 0 silently gets the defaults `limit=10`, `page=1`: the handler
results are identical to those for omitted parameters, and the positivity
check can never fire on such values. -/
theorem c9_falsy_params_get_defaults (limo pago : Option String)
    (hl : ∀ s, limo = some s → parseIntJs s = none ∨ parseIntJs s = some 0)
    (hp : ∀ s, pago = some s → parseIntJs s = none ∨ parseIntJs s = some 0)
    (sorto popo : Option String) (ss : List Student) (ts : List Teacher) :
    parseIntOr limo 10 = 10 ∧ parseIntOr pago 1 = 1 ∧
    getAllStudents ⟨limo, pago, sorto, popo⟩ ss =
      getAllStudents ⟨none, none, sorto, popo⟩ ss ∧
    getAllTeachers ⟨limo, pago, sorto, popo⟩ ts =
      getAllTeachers ⟨none, none, sorto, popo⟩ ts ∧
    ¬(parseIntOr limo 10 ≤ 0 ∨ parseIntOr pago 1 ≤ 0) := by
  have e1 : parseIntOr limo 10 = 10 := by
    cases limo with
    | none => rfl
    | some s => rcases hl s rfl with h | h <;> simp [parseIntOr, h]
  have e2 : parseIntOr pago 1 = 1 := by
    cases pago with
    | none => rfl
    | some s => rcases hp s rfl with h | h <;> simp [parseIntOr, h]
  have e1n : parseIntOr limo 10 = parseIntOr none 10 := e1
  have e2n : parseIntOr pago 1 = parseIntOr none 1 := e2
  refine ⟨e1, e2, ?_, ?_, by omega⟩
  · simp only [getAllStudents]
    rw [e1n, e2n]
  · simp only [getAllTeachers]
    rw [e1n, e2n]

/-- C9 witness: `limit="abc"` (unparseable) and `page="0"` behave exactly
like omitted parameters. -/
theorem c9_falsy_params_get_defaults_witness :
    parseIntOr (some "abc") 10 = 10 ∧ parseIntOr (some "0") 1 = 1 ∧
    getAllStudents ⟨some "abc", some "0", none, none⟩ sampleStudents =
      getAllStudents ⟨none, none, none, none⟩ sampleStudents ∧
    getAllTeachers ⟨some "abc", some "0", none, none⟩ [aliceRow] =
      getAllTeachers ⟨none, none, none, none⟩ [aliceRow] ∧
    ¬(parseIntOr (some "abc") 10 ≤ 0 ∨ parseIntOr (some "0") 1 ≤ 0) :=
  c9_falsy_params_get_defaults (some "abc") (some "0")
    (fun s h => by cases h; exact Or.inl (by decide))
    (fun s h => by cases h; exact Or.inr (by decide))
    none none sampleStudents [aliceRow]

/-- C10: `getStudentById` ignores the populate query parameter entirely —
its result is identical for every query string — and it always
eager-loads the related Course data for a found student. -/
theorem c10_getStudentById_ignores_populate (id : Nat) (q q' : ListQuery)
    (ss : List Student) (coursesOf : Nat → List Course) (s : Student)
    (hfind : ss.find? (fun r => r.id == id) = some s) :
    getStudentById id q ss coursesOf = getStudentById id q' ss coursesOf ∧
    getStudentById id q ss coursesOf = .ok ⟨s, coursesOf s.id⟩ := by
  refine ⟨rfl, ?_⟩
  simp only [getStudentById, hfind]

/-- C10 witness: requests with populate "bogus" and with full valid
parameters give the same record, with Course data included. -/
theorem c10_getStudentById_ignores_populate_witness :
    getStudentById 1 ⟨none, none, none, some "bogus"⟩ sampleStudents
        (fun _ => [⟨7, 0⟩]) =
      getStudentById 1 ⟨some "3", some "2", some "desc", some "courseId"⟩
        sampleStudents (fun _ => [⟨7, 0⟩]) ∧
    getStudentById 1 ⟨none, none, none, some "bogus"⟩ sampleStudents
        (fun _ => [⟨7, 0⟩]) =
      .ok ⟨⟨1, "s1", "d1", 1, 3⟩, [⟨7, 0⟩]⟩ :=
  c10_getStudentById_ignores_populate 1 ⟨none, none, none, some "bogus"⟩
    ⟨some "3", some "2", some "desc", some "courseId"⟩ sampleStudents
    (fun _ => [⟨7, 0⟩]) ⟨1, "s1", "d1", 1, 3⟩ (by decide)

/-- C5: registering the same (name, department, email) twice against an
empty store: the first call succeeds and its response data is exactly
`{id, name, department, email}` (the shape `RegisterData` has no
password-hash field), the second call answers `ConflictError` and leaves
the store with the single record of the first call. -/
theorem c5_register_twice (name dep email pw : String) (hash : String → String)
    (hn : name ≠ "") (hd : dep ≠ "") (he : email ≠ "") (hpw : pw ≠ "") :
    (registerTeacher ⟨some name, some dep, some email, some pw⟩ hash ⟨[], 0, 0⟩).1
      = .registered ⟨0, name, dep, email⟩ ∧
    (registerTeacher ⟨some name, some dep, some email, some pw⟩ hash
        (registerTeacher ⟨some name, some dep, some email, some pw⟩ hash ⟨[], 0, 0⟩).2).1
      = .alreadyExists ∧
    (registerTeacher ⟨some name, some dep, some email, some pw⟩ hash
        (registerTeacher ⟨some name, some dep, some email, some pw⟩ hash ⟨[], 0, 0⟩).2).2.rows
      = [⟨0, name, dep, email, hash pw, 0⟩] := by
  have e1 : registerTeacher ⟨some name, some dep, some email, some pw⟩ hash ⟨[], 0, 0⟩ =
      (.registered ⟨0, name, dep, email⟩,
       ⟨[⟨0, name, dep, email, hash pw, 0⟩], 1, 0⟩) := by
    simp [registerTeacher, truthy, hn, hd, he, hpw]
  have e2 : registerTeacher ⟨some name, some dep, some email, some pw⟩ hash
      ⟨[⟨0, name, dep, email, hash pw, 0⟩], 1, 0⟩ =
      (.alreadyExists, ⟨[⟨0, name, dep, email, hash pw, 0⟩], 1, 0⟩) := by
    simp [registerTeacher, truthy, hn, hd, he, hpw, List.find?]
  simp [e1, e2]

/-- C5 witness: registering ("Ann", "CS", "ann@school.edu") twice. -/
theorem c5_register_twice_witness :
    (registerTeacher ⟨some "Ann", some "CS", some "ann@school.edu", some "pw"⟩
        (fun s => s ++ "#h") ⟨[], 0, 0⟩).1
      = .registered ⟨0, "Ann", "CS", "ann@school.edu"⟩ ∧
    (registerTeacher ⟨some "Ann", some "CS", some "ann@school.edu", some "pw"⟩
        (fun s => s ++ "#h")
        (registerTeacher ⟨some "Ann", some "CS", some "ann@school.edu", some "pw"⟩
          (fun s => s ++ "#h") ⟨[], 0, 0⟩).2).1
      = .alreadyExists ∧
    (registerTeacher ⟨some "Ann", some "CS", some "ann@school.edu", some "pw"⟩
        (fun s => s ++ "#h")
        (registerTeacher ⟨some "Ann", some "CS", some "ann@school.edu", some "pw"⟩
          (fun s => s ++ "#h") ⟨[], 0, 0⟩).2).2.rows
      = [⟨0, "Ann", "CS", "ann@school.edu", (fun s => s ++ "#h") "pw", 0⟩] :=
  c5_register_twice "Ann" "CS" "ann@school.edu" "pw" (fun s => s ++ "#h")
    (by decide) (by decide) (by decide) (by decide)

/-- C6 at a failing input: with one stored teacher, a lookup-miss login
and a wrong-password login both answer 401, but their bodies carry
different messages ('Password or email already exist' vs
'Invalid Password'), so the two failures are distinguishable by the
caller, contradicting the claim of identical bodies. -/
theorem c6_auth_failure_bodies_differ :
    (loginTeacher ⟨some "bob@school.edu", some "pw1"⟩ "secret"
        (fun p h => p == "pw1" && h == "HASH1") 0 [aliceRow]).status = 401 ∧
    (loginTeacher ⟨some "alice@school.edu", some "wrong"⟩ "secret"
        (fun p h => p == "pw1" && h == "HASH1") 0 [aliceRow]).status = 401 ∧
    (loginTeacher ⟨some "bob@school.edu", some "pw1"⟩ "secret"
        (fun p h => p == "pw1" && h == "HASH1") 0 [aliceRow]).message =
      some "Password or email already exist" ∧
    (loginTeacher ⟨some "alice@school.edu", some "wrong"⟩ "secret"
        (fun p h => p == "pw1" && h == "HASH1") 0 [aliceRow]).message =
      some "Invalid Password" ∧
    loginTeacher ⟨some "bob@school.edu", some "pw1"⟩ "secret"
        (fun p h => p == "pw1" && h == "HASH1") 0 [aliceRow] ≠
      loginTeacher ⟨some "alice@school.edu", some "wrong"⟩ "secret"
        (fun p h => p == "pw1" && h == "HASH1") 0 [aliceRow] := by decide

/-- C7 at a failing input: a successful login issues a token signed with
the configured secret, with expiry = issued-at + 3600 and the teacher's
id and email, but its name claim is `undefined` (`none`) — not the stored
teacher's name — because the login lookup selects only
['id', 'email', 'password_hash']. -/
theorem c7_token_name_claim_undefined :
    aliceRow.name = "Alice" ∧
    loginTeacher ⟨some "alice@school.edu", some "pw1"⟩ "secret"
        (fun p h => p == "pw1" && h == "HASH1") 1000 [aliceRow] =
      ⟨200, true, none, some ⟨⟨"alice@school.edu", none, 1⟩, 1000, 4600, "secret"⟩⟩ ∧
    (⟨⟨"alice@school.edu", none, 1⟩, 1000, 4600, "secret"⟩ : Token).payload.name ≠
      some aliceRow.name := by decide

end School
